import Mathlib

/-!
Verification development for the aptos-sage sandbox core: a shallow
embedding of `SandboxService` (simulation registry, code generation,
compile-and-test) and `OpenRouterService.makeRequest` (resilient remote
request client), translated from the TypeScript source.

Modelling conventions:
* JavaScript thrown values are modelled as `Except String` carrying the
  error message (`error instanceof Error ? error.message : ...`).
* `undefined` object fields are modelled as `Option` values; JS string
  falsiness (`!s` true for `undefined` and `""`) is modelled explicitly.
* JS numbers are modelled as `Rat` (the claims only exercise exact
  decimal values, where IEEE doubles and rationals agree).
* Remote collaborators (OpenRouter endpoint, E2B sandbox provider) are
  modelled as explicit oracle parameters supplying each call's outcome.
-/

namespace AptosSage

/-- JS `parseFloat` on the decimal fragment the validators use: skips
leading whitespace, reads an optional sign and a decimal digit prefix
with at most one point, and returns `none` for NaN (no digits parsed).
The parsed value is returned exactly as a scaled integer
`(mantissa, scale)` denoting `mantissa / 10 ^ scale` (see `decValue`).
Exponent forms and `Infinity` are not modelled; no claim exercises them. -/
def tsParseFloat (s : String) : Option (Int × Nat) :=
  let cs := s.toList.dropWhile Char.isWhitespace
  let signAndRest : Int × List Char :=
    match cs with
    | '-' :: rest => (-1, rest)
    | '+' :: rest => (1, rest)
    | _ => (1, cs)
  let intPart := signAndRest.2.takeWhile Char.isDigit
  let afterInt := signAndRest.2.dropWhile Char.isDigit
  let fracPart : List Char :=
    match afterInt with
    | '.' :: r => r.takeWhile Char.isDigit
    | _ => []
  if intPart.isEmpty && fracPart.isEmpty then none
  else
    let digitsVal : List Char → Nat :=
      fun l => l.foldl (fun a c => a * 10 + (c.toNat - 48)) 0
    some (signAndRest.1 * ((digitsVal intPart : Int) * (10 : Int) ^ fracPart.length +
            (digitsVal fracPart : Int)),
          fracPart.length)

/-- The rational value a `tsParseFloat` result denotes. -/
def decValue (p : Int × Nat) : Rat := (p.1 : Rat) / (10 : Rat) ^ p.2

/-- JS truthiness check `!s` for an optional string field: true when the
field is `undefined` or the empty string. -/
def strFalsy : Option String → Bool
  | none => true
  | some s => s = ""

/-- JS comparison `x < y` where `x` may be `undefined`: comparing
`undefined` with a number is always false (NaN semantics). -/
def numLt : Option Rat → Rat → Bool
  | none, _ => false
  | some x, y => x < y

/-- JS comparison `x > y` where `x` may be `undefined`. -/
def numGt : Option Rat → Rat → Bool
  | none, _ => false
  | some x, y => y < x

/-- JS strict equality `a === b` on optional string fields:
`undefined === undefined` is true. -/
def optStrEq : Option String → Option String → Bool
  | none, none => true
  | some a, some b => a = b
  | _, _ => false

/-- JS check `!s || parseFloat(s) <= 0` used for the numeric-string
fields (`totalSupply`, `initialLiquidityA/B`, `minDeposit`); a NaN
parse makes `parseFloat(s) <= 0` false. The comparison with 0 is taken
on the mantissa, which `decValue_nonpos_iff` below proves equivalent to
comparing the denoted rational value. -/
def nonPositiveNumericStr (o : Option String) : Bool :=
  strFalsy o ||
    (match o with
     | none => false
     | some s =>
       match tsParseFloat s with
       | none => false
       | some q => q.1 ≤ 0)

/-- JS check `!s || s.length < 1` used for required string fields. -/
def missingStr (o : Option String) : Bool :=
  strFalsy o ||
    (match o with
     | none => false
     | some s => s.length < 1)

/-- The loosely-typed (`any`) parameter record passed to the sandbox
service: the union of the fields the three validators read, each
optional because a caller may omit any of them (the service's parameter
type lives in the repository's `@/types` module, absent from the
sources; the field inventory is taken from the reads in
`validateParameters` and the generator prompts). -/
structure Params where
  name : Option String := none
  symbol : Option String := none
  decimals : Option Rat := none
  totalSupply : Option String := none
  iconUri : Option String := none
  projectUri : Option String := none
  tokenA : Option String := none
  tokenB : Option String := none
  fee : Option Rat := none
  initialLiquidityA : Option String := none
  initialLiquidityB : Option String := none
  token : Option String := none
  strategy : Option String := none
  minDeposit : Option String := none
deriving DecidableEq, Repr

/-- Result of `validateParameters`. -/
structure ValidationResult where
  valid : Bool
  errors : List String
deriving DecidableEq, Repr

/-- `SandboxService.validateParameters`: switches on the artifact type
string and accumulates human-readable error strings; `valid` is
`errors.length === 0`. The switch has no default case, so an
unrecognized type accumulates nothing. -/
def validateParameters (type : String) (parameters : Params) : ValidationResult :=
  let errors : List String :=
    if type = "token" then
      (if missingStr parameters.name then ["Token name is required"] else []) ++
      (if strFalsy parameters.symbol ||
          (match parameters.symbol with
           | none => false
           | some s => s.length < 1 || s.length > 10) then
        ["Token symbol must be 1-10 characters"] else []) ++
      (if numLt parameters.decimals 0 || numGt parameters.decimals 18 then
        ["Decimals must be between 0 and 18"] else []) ++
      (if nonPositiveNumericStr parameters.totalSupply then
        ["Total supply must be greater than 0"] else [])
    else if type = "pool" then
      (if missingStr parameters.name then ["Pool name is required"] else []) ++
      (if strFalsy parameters.tokenA || strFalsy parameters.tokenB then
        ["Both tokens are required"] else []) ++
      (if optStrEq parameters.tokenA parameters.tokenB then
        ["Token A and Token B must be different"] else []) ++
      (if numLt parameters.fee 0 || numGt parameters.fee 100 then
        ["Fee must be between 0 and 100"] else []) ++
      (if nonPositiveNumericStr parameters.initialLiquidityA then
        ["Initial liquidity A must be greater than 0"] else []) ++
      (if nonPositiveNumericStr parameters.initialLiquidityB then
        ["Initial liquidity B must be greater than 0"] else [])
    else if type = "vault" then
      (if missingStr parameters.name then ["Vault name is required"] else []) ++
      (if strFalsy parameters.token then ["Token is required"] else []) ++
      (if missingStr parameters.strategy then ["Strategy is required"] else []) ++
      (if numLt parameters.fee 0 || numGt parameters.fee 100 then
        ["Fee must be between 0 and 100"] else []) ++
      (if nonPositiveNumericStr parameters.minDeposit then
        ["Minimum deposit must be greater than 0"] else [])
    else []
  { valid := errors.length = 0, errors := errors }

/-- Structured verdict stored on a simulation after a test cycle.
Fields the source's object literals may omit are `Option`s. -/
structure SimResult where
  success : Bool
  errors : List String
  warnings : Option (List String) := none
  gasEstimate : Option String := none
  aiAnalysis : Option String := none
deriving DecidableEq, Repr

/-- The `SandboxSimulation` entity. Its declaration lives in the
repository's `@/types` module (absent from the sources); fields are
taken from the service's reads/writes, `status` as the literal strings
the code assigns. `executionCount` appears in that entity per the spec
and the UI's `(simulation as any).executionCount` accesses; the service
never writes it, so it is `Option Nat` with `none` for absent. -/
structure SandboxSimulation where
  id : String
  type : String
  parameters : Params
  code : String
  status : String
  result : Option SimResult := none
  createdAt : Nat
  executionCount : Option Nat := none
deriving DecidableEq, Repr

/-- The in-memory registry `Map<string, SandboxSimulation>`, modelled as
an association list keyed by simulation id. -/
abbrev Registry := List (String × SandboxSimulation)

/-- `Map.get`. -/
def regFind (st : Registry) (simulationId : String) : Option SandboxSimulation :=
  (st.find? (fun p => p.1 = simulationId)).map (fun p => p.2)

/-- `Map.set`: replaces the entry when the key is present, otherwise
appends. -/
def regSet (st : Registry) (simulationId : String) (sim : SandboxSimulation) : Registry :=
  if (st.find? (fun p => p.1 = simulationId)).isSome then
    st.map (fun p => if p.1 = simulationId then (simulationId, sim) else p)
  else
    st ++ [(simulationId, sim)]

/-- `SandboxService.createSimulation`: builds a fresh simulation with
`status = 'pending'`, empty code and no result, stores it, and returns
it. The id (derived from `Date.now()` and `Math.random()` in the
source) and the creation timestamp are supplied as parameters, the
clock and randomness being external. No validation is performed. -/
def createSimulation (st : Registry) (simulationId : String) (now : Nat)
    (type : String) (parameters : Params) : SandboxSimulation × Registry :=
  let simulation : SandboxSimulation :=
    { id := simulationId
      type := type
      parameters := parameters
      code := ""
      status := "pending"
      createdAt := now }
  (simulation, regSet st simulationId simulation)

/-- Outcome oracle for the three OpenRouter code generators the
`generateCode` switch dispatches to (`generateTokenCode`,
`generatePoolCode`, `generateVaultCode`): each remote call either
yields the generated text or throws with a message. -/
structure CodeGenOracle where
  genToken : Params → Except String String
  genPool : Params → Except String String
  genVault : Params → Except String String

/-- The `switch (simulation.type)` of `generateCode`: dispatches to the
per-type generator, throwing `'Invalid simulation type'` on any other
type string. -/
def dispatchGenerate (g : CodeGenOracle) (simulation : SandboxSimulation) :
    Except String String :=
  if simulation.type = "token" then g.genToken simulation.parameters
  else if simulation.type = "pool" then g.genPool simulation.parameters
  else if simulation.type = "vault" then g.genVault simulation.parameters
  else .error "Invalid simulation type"

/-- `SandboxService.generateCode`: throws `'Simulation not found'` for
an unknown id; otherwise sets `status = 'compiling'`, dispatches on the
simulation's type (throwing `'Invalid simulation type'` on any other
type), on success stores the returned text in `code` and returns it; on
any thrown error sets `status = 'error'`, stores a one-element error
result, and re-throws. The source mutates the map entry in place;
here the final entry is written back with `regSet`. -/
def generateCode (g : CodeGenOracle) (st : Registry) (simulationId : String) :
    Except String String × Registry :=
  match regFind st simulationId with
  | none => (.error "Simulation not found", st)
  | some simulation =>
    let simulation := { simulation with status := "compiling" }
    match dispatchGenerate g simulation with
    | .ok code =>
      let simulation := { simulation with code := code }
      (.ok code, regSet st simulationId simulation)
    | .error msg =>
      let simulation :=
        { simulation with
          status := "error"
          result := some { success := false, errors := [msg] } }
      (.error msg, regSet st simulationId simulation)

/-- Result of an awaited sandbox process (`compileProc.wait`). -/
structure ProcOutput where
  exitCode : Int
  stdout : String
  stderr : String
deriving DecidableEq, Repr

/-- Outcome oracle for one `testCode` run's external effects: the E2B
credential (JS-falsy when `""`), each awaited sandbox step (provision,
CLI install, the two file writes and the directory creation, the
compiler process), and the follow-up `analyzeCode` request. Each step
either completes or throws with a message. -/
structure SandboxEnv where
  e2bApiKey : String
  create : Except String Unit
  installCli : Except String Unit
  writeMoveToml : Except String Unit
  makeSourcesDir : Except String Unit
  writeMainMove : Except String Unit
  compileProc : Except String ProcOutput
  analyze : Except String String

/-- JS `split('\n')` over a character list: every segment between
newline characters, empty segments kept. -/
def splitNewlineChars : List Char → List (List Char)
  | [] => [[]]
  | c :: cs =>
    let rest := splitNewlineChars cs
    if c = '\n' then [] :: rest
    else
      match rest with
      | [] => [[c]]
      | seg :: segs => (c :: seg) :: segs

/-- JS `str.split('\n')`. -/
def jsSplitNewline (s : String) : List String :=
  (splitNewlineChars s.toList).map (fun l => String.mk l)

/-- JS `str.trim()`: strips leading and trailing whitespace. -/
def jsTrim (s : String) : String :=
  String.mk (((s.toList.dropWhile Char.isWhitespace).reverse.dropWhile
    Char.isWhitespace).reverse)

/-- The `line.trim() !== ''` filter applied to `stderr.split('\n')` on a
failed compile. -/
def stderrErrorLines (stderr : String) : List String :=
  (jsSplitNewline stderr).filter (fun line => jsTrim line ≠ "")

/-- Whether the first character list is an initial segment of the
second. -/
def charsStart : List Char → List Char → Bool
  | [], _ => true
  | _ :: _, [] => false
  | p :: ps, c :: cs => p = c && charsStart ps cs

/-- Whether the first character list occurs contiguously inside the
second. -/
def charsContain (pat : List Char) : List Char → Bool
  | [] => charsStart pat []
  | c :: cs => charsStart pat (c :: cs) || charsContain pat cs

/-- The `line.toLowerCase().includes('warning')` half of the stdout
warning filter: case-insensitive substring test. -/
def containsWarningCI (line : String) : Bool :=
  charsContain "warning".toList (line.toList.map Char.toLower)

/-- The stdout filter applied on a successful compile:
`line.trim() !== '' && line.toLowerCase().includes('warning')`. -/
def stdoutWarningLines (stdout : String) : List String :=
  (jsSplitNewline stdout).filter (fun line => jsTrim line ≠ "" && containsWarningCI line)

/-- The body of `testCode`'s `try` block, after the status update: the
chain of awaited sandbox steps. Returns the simulation as left by a
completed body or the thrown message, paired with whether the `sandbox`
variable was assigned (i.e. provisioning succeeded), which the
`finally` block tests before calling `close()`. -/
def runTry (env : SandboxEnv) (simulation : SandboxSimulation) :
    Except String SandboxSimulation × Bool :=
  if env.e2bApiKey = "" then
    (.error "E2B_API_KEY is not set in environment variables.", false)
  else
    match env.create with
    | .error msg => (.error msg, false)
    | .ok _ =>
      match env.installCli with
      | .error msg => (.error msg, true)
      | .ok _ =>
        match env.writeMoveToml with
        | .error msg => (.error msg, true)
        | .ok _ =>
          match env.makeSourcesDir with
          | .error msg => (.error msg, true)
          | .ok _ =>
            match env.writeMainMove with
            | .error msg => (.error msg, true)
            | .ok _ =>
              match env.compileProc with
              | .error msg => (.error msg, true)
              | .ok output =>
                let success := output.exitCode = 0
                let errors := if ¬success then stderrErrorLines output.stderr else []
                let warnings := if success then stdoutWarningLines output.stdout else []
                match env.analyze with
                | .error msg => (.error msg, true)
                | .ok aiAnalysis =>
                  (.ok { simulation with
                          result := some
                            { success := success
                              errors := errors
                              warnings := some warnings
                              gasEstimate := some "Compilation check only"
                              aiAnalysis := some aiAnalysis }
                          status := if success then "success" else "error" },
                   true)

/-- What a completed `testCode` call yields: the returned value or the
propagated throw, the registry afterwards, and how many times
`sandbox.close()` ran in the `finally` block. -/
structure TestOutcome where
  outcome : Except String SandboxSimulation
  state : Registry
  closes : Nat
deriving Repr

/-- `SandboxService.testCode`: throws for an unknown id or empty
`code`; otherwise sets `status = 'compiling'`, stores it, runs the
`try` body; the `catch` maps any thrown error to `status = 'error'`
with a one-element error result and does not re-throw; the `finally`
closes the sandbox exactly when it was provisioned; the final
simulation is stored and returned. -/
def testCode (env : SandboxEnv) (st : Registry) (simulationId : String) : TestOutcome :=
  match regFind st simulationId with
  | none => { outcome := .error "Simulation not found", state := st, closes := 0 }
  | some simulation =>
    if simulation.code = "" then
      { outcome := .error "No code generated for simulation", state := st, closes := 0 }
    else
      let simulation := { simulation with status := "compiling" }
      let st := regSet st simulationId simulation
      let body := runTry env simulation
      let simulation :=
        match body.1 with
        | .ok updated => updated
        | .error msg =>
          { simulation with
            status := "error"
            result := some { success := false, errors := [msg] } }
      { outcome := .ok simulation
        state := regSet st simulationId simulation
        closes := if body.2 then 1 else 0 }

/-- One chat message in an OpenRouter response. -/
structure ChatMessage where
  content : String
deriving DecidableEq, Repr

/-- One response choice. -/
structure Choice where
  message : ChatMessage
deriving DecidableEq, Repr

/-- The parsed `OpenRouterResponse` body. -/
structure OpenRouterResponse where
  choices : List Choice
deriving DecidableEq, Repr

/-- One `fetch` response as `makeRequest` inspects it: HTTP status, the
optional `Retry-After` header (seconds), the status text, and the
parsed JSON body (read only when the status is a non-429 success). -/
structure FetchResponse where
  status : Nat
  retryAfter : Option Nat := none
  statusText : String := ""
  body : OpenRouterResponse := { choices := [] }
deriving DecidableEq, Repr

/-- `response.ok`: status in the 2xx range. -/
def respOk (r : FetchResponse) : Bool :=
  200 ≤ r.status && r.status < 300

/-- The remote service: the response to the n-th underlying call (0
based) when issued against the given model identifier. -/
abbrev RemoteService := Nat → String → FetchResponse

/-- JS `model.endsWith(':free')`. -/
def endsWithFree (model : String) : Bool :=
  charsStart ":free".toList.reverse model.toList.reverse

/-- JS `model.replace(':free', '')`: removes every occurrence of
`:free`; the fuel argument (instantiated with the list length) makes
the recursion structural. -/
def removeFreeGo : Nat → List Char → List Char
  | 0, cs => cs
  | _ + 1, [] => []
  | fuel + 1, c :: rest =>
    if charsStart ":free".toList (c :: rest) then removeFreeGo fuel (rest.drop 4)
    else c :: removeFreeGo fuel rest

/-- The `:free`-tier downgrade applied when a 429 is observed:
`model.replace(':free', '')` guarded by `model.endsWith(':free')`. -/
def downgradeModel (model : String) : String :=
  if endsWithFree model then String.mk (removeFreeGo model.toList.length model.toList)
  else model

/-- What a `makeRequest` invocation produced: the returned body or the
thrown message, plus how many underlying `fetch` calls ran. -/
structure RequestOutcome where
  outcome : Except String OpenRouterResponse
  calls : Nat
deriving Repr

/-- The `for (let i = 0; i <= retries; i++)` loop of `makeRequest`,
structured over the number of iterations still allowed after the
current one (`remaining = retries - i`, so the `i === retries` check is
`remaining = 0`): each iteration fetches once; a 429 downgrades the
model and either throws the exhaustion error (last iteration) or
continues; any other non-2xx throws immediately; a 2xx returns the
body. `calls` counts fetches issued so far and doubles as the call
index. -/
def makeRequestGo (svc : RemoteService) : Nat → String → Nat → RequestOutcome
  | remaining, model, calls =>
    let response := svc calls model
    if response.status = 429 then
      let model := downgradeModel model
      match remaining with
      | 0 =>
        { outcome := .error "OpenRouter API error: too many retries after 429"
          calls := calls + 1 }
      | r + 1 => makeRequestGo svc r model (calls + 1)
    else if ¬respOk response then
      { outcome := .error ("OpenRouter API error: " ++ toString response.status ++ " " ++
          response.statusText)
        calls := calls + 1 }
    else
      { outcome := .ok response.body, calls := calls + 1 }

/-- `OpenRouterService.makeRequest`: throws without any call when the
API key is not configured (JS-falsy, i.e. empty), otherwise runs the
retry loop with `retries` additional attempts after the first. The
messages array does not influence control flow and is elided; delays
between attempts are timing, not state. -/
def makeRequest (svc : RemoteService) (apiKey : String) (model : String)
    (retries : Nat) : RequestOutcome :=
  if apiKey = "" then
    { outcome := .error "OpenRouter API key not configured", calls := 0 }
  else
    makeRequestGo svc retries model 0

/-- The failure kinds a chat-level operation can surface.
`thrown` wraps a message thrown by `makeRequest`;
`typeErrorUndefined` is the runtime TypeError raised by reading
`.message` on `choices[0]` when the choice list is empty;
`malformedResponse` is the guarded error kind the specification
expects for an empty choice list — it is declared here only so the two
failure kinds can be compared, the source never produces it. -/
inductive ChatFailure where
  | thrown (msg : String)
  | typeErrorUndefined
  | malformedResponse
deriving DecidableEq, Repr

/-- The shared tail of `chatWithAssistant`, `analyzeCode` and the other
chat-level operations: `await this.makeRequest(messages)` with the
default model `'qwen/qwen-2.5-coder-32b-instruct'` and default
`retries = 2`, then the unchecked access
`response.choices[0].message.content`. -/
def chatWithAssistant (svc : RemoteService) (apiKey : String) :
    Except ChatFailure String :=
  match (makeRequest svc apiKey "qwen/qwen-2.5-coder-32b-instruct" 2).outcome with
  | .error msg => .error (.thrown msg)
  | .ok response =>
    match response.choices with
    | [] => .error .typeErrorUndefined
    | choice :: _ => .ok choice.message.content

/-! Concrete fixtures used to instantiate the theorems. -/

/-- A valid token parameter record (the spec's happy-path scenario). -/
def exParams : Params :=
  { name := some "Demo", symbol := some "DMO", decimals := some 8,
    totalSupply := some "1000000" }

/-- A token record with an 11-character symbol. -/
def badTokenParams : Params :=
  { name := some "Demo", symbol := some "ABCDEFGHIJK", decimals := some 8,
    totalSupply := some "1000000" }

/-- A pool record with fee -1. -/
def badPoolParams : Params :=
  { name := some "Pool", tokenA := some "APT", tokenB := some "USDC",
    fee := some (-1), initialLiquidityA := some "10", initialLiquidityB := some "20" }

/-- A vault record with minDeposit "0". -/
def badVaultParams : Params :=
  { name := some "Vault", token := some "APT", strategy := some "stake",
    fee := some 2, minDeposit := some "0" }

/-- A freshly created token simulation. -/
def exSim : SandboxSimulation := (createSimulation [] "sim1" 0 "token" exParams).1

/-- The same simulation after code generation stored some source. -/
def exSimWithCode : SandboxSimulation := { exSim with code := "module demo {}" }

/-- A simulation carrying an explicit execution counter of 0, to observe
whether `testCode` ever increments it. -/
def exSimCounted : SandboxSimulation := { exSimWithCode with executionCount := some 0 }

/-- A generation oracle whose token generator succeeds. -/
def exOracle : CodeGenOracle :=
  { genToken := fun _ => .ok "module demo {}"
    genPool := fun _ => .error "unused"
    genVault := fun _ => .error "unused" }

/-- A sandbox run in which every step succeeds and the compiler exits 0. -/
def exEnvOK : SandboxEnv :=
  { e2bApiKey := "e2b-key"
    create := .ok ()
    installCli := .ok ()
    writeMoveToml := .ok ()
    makeSourcesDir := .ok ()
    writeMainMove := .ok ()
    compileProc := .ok { exitCode := 0, stdout := "", stderr := "" }
    analyze := .ok "fine" }

/-- As `exEnvOK` but the follow-up analysis request throws. -/
def exEnvAnalyzeFail : SandboxEnv := { exEnvOK with analyze := .error "analysis failed" }

/-- As `exEnvOK` but the compiler-run step itself throws. -/
def exEnvCompileThrows : SandboxEnv :=
  { exEnvOK with compileProc := .error "sandbox crashed" }

/-- As `exEnvOK` but the compiler completes with exit code 1 and two
stderr error lines (the spec's compile-failure scenario). -/
def exEnvCompileFails : SandboxEnv :=
  { exEnvOK with
    compileProc := .ok
      { exitCode := 1, stdout := ""
        stderr := "error: missing module\nerror: unresolved import" } }

/-- A remote service rate-limiting every call. -/
def svcAlways429 : RemoteService := fun _ _ => { status := 429 }

/-- A one-choice success body. -/
def exBody : OpenRouterResponse := { choices := [{ message := { content := "hello" } }] }

/-- A remote service rate-limiting the first two calls and then
succeeding. -/
def svcSucceedAt2 : RemoteService := fun n _ =>
  if n < 2 then { status := 429 } else { status := 200, body := exBody }

/-- A remote service answering 200 with an empty choice list. -/
def svcEmptyChoices : RemoteService := fun _ _ => { status := 200 }

/-- A remote service answering 200 with one choice. -/
def svcOneChoice : RemoteService := fun _ _ => { status := 200, body := exBody }

/-! Supporting lemmas. -/

/-- Comparing a parsed decimal's mantissa with 0 agrees with comparing
its denoted rational value with 0, since the scale power is positive. -/
theorem decValue_nonpos_iff (p : Int × Nat) : decValue p ≤ 0 ↔ p.1 ≤ 0 := by
  unfold decValue
  have hpow : (0 : Rat) < (10 : Rat) ^ p.2 := by positivity
  rw [div_nonpos_iff]
  constructor
  · rintro (⟨_, hb⟩ | ⟨ha, _⟩)
    · exact absurd hpow (not_lt.mpr hb)
    · exact_mod_cast ha
  · intro hm
    exact Or.inr ⟨by exact_mod_cast hm, le_of_lt hpow⟩

/-! Registry lemmas. -/

theorem regFind_map_replace (st : Registry) (simulationId : String) (x : SandboxSimulation)
    (h : (st.find? (fun p => p.1 = simulationId)).isSome) :
    regFind (st.map (fun p => if p.1 = simulationId then (simulationId, x) else p))
      simulationId = some x := by
  induction st with
  | nil => simp [List.find?] at h
  | cons hd tl ih =>
    by_cases hhd : hd.1 = simulationId
    · simp [regFind, List.find?, hhd]
    · have h2 : (tl.find? (fun p => p.1 = simulationId)).isSome := by
        simpa [List.find?, hhd] using h
      simpa [regFind, List.find?, hhd] using ih h2

theorem regFind_append_single (st : Registry) (simulationId : String) (x : SandboxSimulation)
    (h : st.find? (fun p => p.1 = simulationId) = none) :
    regFind (st ++ [(simulationId, x)]) simulationId = some x := by
  induction st with
  | nil => simp [regFind, List.find?]
  | cons hd tl ih =>
    by_cases hhd : hd.1 = simulationId
    · simp [List.find?, hhd] at h
    · have h2 : tl.find? (fun p => p.1 = simulationId) = none := by
        simpa [List.find?, hhd] using h
      simpa [regFind, List.find?, hhd] using ih h2

/-- Reading back the entry just written by `regSet`. -/
theorem regFind_regSet (st : Registry) (simulationId : String) (x : SandboxSimulation) :
    regFind (regSet st simulationId x) simulationId = some x := by
  unfold regSet
  by_cases h : (st.find? (fun p => p.1 = simulationId)).isSome
  · simpa [h] using regFind_map_replace st simulationId x h
  · have h2 : st.find? (fun p => p.1 = simulationId) = none := by
      cases hf : st.find? (fun p => p.1 = simulationId) with
      | none => rfl
      | some v => simp [hf] at h
    simpa [h] using regFind_append_single st simulationId x h2

/-! Claim theorems. -/

/-- C10: for every parameters value, `validateParameters` called with a
type string other than 'token', 'pool', or 'vault' returns `valid=true`
with an empty error list — the switch applies no check at all to
unrecognized artifact types. -/
theorem validateParameters_unknown_type (type : String) (parameters : Params)
    (ht : type ≠ "token") (hp : type ≠ "pool") (hv : type ≠ "vault") :
    validateParameters type parameters = { valid := true, errors := [] } := by
  unfold validateParameters
  simp [ht, hp, hv]

/-- C10 witness: the unrecognized type "nft" passes validation with no
errors. -/
theorem validateParameters_unknown_type_witness :
    validateParameters "nft" {} = { valid := true, errors := [] } :=
  validateParameters_unknown_type "nft" {} (by decide) (by decide) (by decide)

/-- C3 counterexample: a token record with an 11-character symbol is
flagged invalid by `validateParameters`, yet `createSimulation` does
not fail — it returns a pending simulation and the registry gains the
new entry (it was empty and now holds one simulation), so the claim
that `createSimulation` fails with a `ValidationError` and leaves the
registry unchanged is false. -/
theorem createSimulation_no_validation_counterexample :
    (validateParameters "token" badTokenParams).valid = false ∧
    (createSimulation [] "simBad" 0 "token" badTokenParams).2.length = 1 ∧
    (createSimulation [] "simBad" 0 "token" badTokenParams).1.status = "pending" :=
  ⟨by decide, rfl, rfl⟩

/-- C3 (amended): `createSimulation` performs no validation at all: for
every parameter record — including records failing the type-specific
checks, such as a token symbol of length 11, a pool fee of -1, or a
vault minDeposit of "0", each of which `validateParameters` does flag
as invalid — it unconditionally stores and returns a new pending
simulation. -/
theorem createSimulation_stores_unconditionally (st : Registry) (simulationId : String)
    (now : Nat) (type : String) (parameters : Params) :
    ((createSimulation st simulationId now type parameters).1.status = "pending" ∧
     (createSimulation st simulationId now type parameters).2 =
       regSet st simulationId (createSimulation st simulationId now type parameters).1 ∧
     regFind (createSimulation st simulationId now type parameters).2 simulationId =
       some (createSimulation st simulationId now type parameters).1) ∧
    (validateParameters "token" badTokenParams).valid = false ∧
    (validateParameters "pool" badPoolParams).valid = false ∧
    (validateParameters "vault" badVaultParams).valid = false :=
  ⟨⟨rfl, rfl, regFind_regSet st simulationId _⟩, by decide, by decide, by decide⟩

/-- C1 counterexample: on an existing simulation whose generation call
succeeds, `generateCode` leaves the stored simulation with status
'compiling' — it never set 'generating' (no code path assigns that
string) and does not return the status to 'pending' on success. -/
theorem generateCode_status_counterexample :
    (regFind (generateCode exOracle [("sim1", exSim)] "sim1").2 "sim1").map
      SandboxSimulation.status = some "compiling" ∧
    some "compiling" ≠ (some "generating" : Option String) ∧
    some "compiling" ≠ (some "pending" : Option String) :=
  ⟨rfl, by decide, by decide⟩

/-- C1 (amended): for every existing simulation id, `generateCode`
first sets the simulation's status to 'compiling' (not 'generating'),
and when the remote code-generation call succeeds it stores the
returned text as the simulation's code and leaves the status at
'compiling' (never 'success', and not back to 'pending'). -/
theorem generateCode_success_behavior (g : CodeGenOracle) (st : Registry)
    (simulationId : String) (sim : SandboxSimulation) (code : String)
    (hfind : regFind st simulationId = some sim)
    (hgen : dispatchGenerate g sim = .ok code) :
    generateCode g st simulationId =
      (.ok code, regSet st simulationId { sim with status := "compiling", code := code }) := by
  unfold generateCode
  rw [hfind]
  dsimp only
  rw [show dispatchGenerate g { sim with status := "compiling" } = dispatchGenerate g sim
      from rfl]
  rw [hgen]

/-- C1 witness: the concrete successful generation run. -/
theorem generateCode_success_behavior_witness :
    generateCode exOracle [("sim1", exSim)] "sim1" =
      (.ok "module demo {}",
       regSet [("sim1", exSim)] "sim1"
         { exSim with status := "compiling", code := "module demo {}" }) :=
  generateCode_success_behavior exOracle [("sim1", exSim)] "sim1" exSim
    "module demo {}" rfl rfl

/-- C9 counterexample: on a 2xx, non-rate-limited response whose choice
list is empty, the chat operation fails with the runtime TypeError of
the unchecked `choices[0].message` access — a failure kind distinct
from the guarded `MalformedResponseError` the claim requires. -/
theorem chat_empty_choices_counterexample :
    chatWithAssistant svcEmptyChoices "key" = .error ChatFailure.typeErrorUndefined ∧
    ChatFailure.typeErrorUndefined ≠ ChatFailure.malformedResponse :=
  ⟨rfl, by decide⟩

/-- C9 (amended): for every non-rate-limited 2xx response, the chat
operation returns the first response choice's message content verbatim
when at least one choice is present; when the choice list is empty it
fails with the unchecked-access runtime TypeError, not with a guarded
`MalformedResponseError`. -/
theorem chat_returns_first_choice_content (svc : RemoteService) (apiKey : String)
    (hkey : apiKey ≠ "")
    (h429 : (svc 0 "qwen/qwen-2.5-coder-32b-instruct").status ≠ 429)
    (hok : respOk (svc 0 "qwen/qwen-2.5-coder-32b-instruct")) :
    chatWithAssistant svc apiKey =
      match (svc 0 "qwen/qwen-2.5-coder-32b-instruct").body.choices with
      | [] => .error ChatFailure.typeErrorUndefined
      | choice :: _ => .ok choice.message.content := by
  unfold chatWithAssistant makeRequest
  rw [if_neg hkey]
  unfold makeRequestGo
  simp only [if_neg h429, hok, Bool.not_true, Bool.false_eq_true, if_false]
  rfl

/-- C9 witness: a service answering with one choice yields that
choice's content. -/
theorem chat_returns_first_choice_content_witness :
    chatWithAssistant svcOneChoice "key" = .ok "hello" :=
  chat_returns_first_choice_content svcOneChoice "key" (by decide) (by decide) (by decide)

/-- C5: for every simulation with non-empty generated source, any error
thrown inside `testCode`'s sandbox block is caught and not re-raised:
the call returns normally (`outcome` is an `ok`) with the simulation's
result set to `success = false` and a one-element error list carrying
the thrown message, and status set to 'error'. -/
theorem testCode_catches_sandbox_errors (env : SandboxEnv) (st : Registry)
    (simulationId : String) (sim : SandboxSimulation) (msg : String) (b : Bool)
    (hfind : regFind st simulationId = some sim) (hcode : sim.code ≠ "")
    (hrun : runTry env { sim with status := "compiling" } = (.error msg, b)) :
    (testCode env st simulationId).outcome =
      .ok { sim with
            status := "error"
            result := some { success := false, errors := [msg] } } := by
  unfold testCode
  rw [hfind]
  dsimp only
  rw [if_neg hcode]
  dsimp only
  rw [hrun]

/-- C5 witness: a concrete run whose compiler step throws is reported,
not re-thrown. -/
theorem testCode_catches_sandbox_errors_witness :
    (testCode exEnvCompileThrows [("sim1", exSimWithCode)] "sim1").outcome =
      .ok { exSimWithCode with
            status := "error"
            result := some { success := false, errors := ["sandbox crashed"] } } :=
  testCode_catches_sandbox_errors exEnvCompileThrows [("sim1", exSimWithCode)] "sim1"
    exSimWithCode "sandbox crashed" true rfl (by decide) rfl

/-- A completed `try` body hands back the staged simulation with only
`result` and `status` rewritten; in particular `executionCount` is
untouched. -/
theorem runTry_ok_executionCount (env : SandboxEnv) (s u : SandboxSimulation)
    (h : (runTry env s).1 = .ok u) : u.executionCount = s.executionCount := by
  obtain ⟨k, cr, ic, wt, md, wm, cp, an⟩ := env
  by_cases hk : k = ""
  · simp [runTry, hk] at h
  · cases cr <;> cases ic <;> cases wt <;> cases md <;> cases wm <;> cases cp <;> cases an <;>
      first
      | (simp [runTry, hk] at h; subst h; rfl)
      | simp [runTry, hk] at h

/-- The `sandbox` variable of `testCode` ends up assigned exactly when
the credential check passed and provisioning succeeded. -/
theorem runTry_created (env : SandboxEnv) (s : SandboxSimulation) :
    (runTry env s).2 = true ↔ env.e2bApiKey ≠ "" ∧ env.create = .ok () := by
  obtain ⟨k, cr, ic, wt, md, wm, cp, an⟩ := env
  by_cases hk : k = ""
  · simp [runTry, hk]
  · cases cr with
    | error e => simp [runTry, hk]
    | ok u =>
      cases u
      cases ic <;> cases wt <;> cases md <;> cases wm <;> cases cp <;> cases an <;>
        simp [runTry, hk]

/-- C2 counterexample: a completed `testCode` call on a simulation with
non-empty generated source and an explicit execution counter of 0
leaves the counter at 0 — it is not incremented to 1, so the claim
that every completed call increments `executionCount` by exactly 1 is
false (the service never writes that field). -/
theorem executionCount_counterexample :
    ((testCode exEnvOK [("sim1", exSimCounted)] "sim1").outcome.toOption.map
      SandboxSimulation.executionCount) = some (some 0) ∧
    (some (some 0) : Option (Option Nat)) ≠ some (some 1) :=
  ⟨rfl, by decide⟩

/-- C2 (amended): `executionCount` is never written by the service:
`testCode` returns the simulation with `executionCount` exactly as it
was before the call (so the counter is trivially non-decreasing), and
generation and creation leave it unchanged as well — `createSimulation`
produces a simulation with the field unset. -/
theorem executionCount_never_modified (env : SandboxEnv) (st : Registry)
    (simulationId : String) (sim : SandboxSimulation) (g : CodeGenOracle)
    (hfind : regFind st simulationId = some sim) :
    (∀ sim2, (testCode env st simulationId).outcome = .ok sim2 →
      sim2.executionCount = sim.executionCount) ∧
    (∀ sim3, regFind (generateCode g st simulationId).2 simulationId = some sim3 →
      sim3.executionCount = sim.executionCount) ∧
    (∀ st2 id2 now ty p, (createSimulation st2 id2 now ty p).1.executionCount = none) := by
  refine ⟨?_, ?_, fun st2 id2 now ty p => rfl⟩
  · intro sim2 hok
    unfold testCode at hok
    rw [hfind] at hok
    dsimp only at hok
    by_cases hcode : sim.code = ""
    · rw [if_pos hcode] at hok
      simp at hok
    · rw [if_neg hcode] at hok
      dsimp only at hok
      cases hbody : (runTry env { sim with status := "compiling" }).1 with
      | error msg =>
        rw [hbody] at hok
        dsimp only at hok
        cases hok
        rfl
      | ok updated =>
        rw [hbody] at hok
        dsimp only at hok
        cases hok
        exact runTry_ok_executionCount env _ _ hbody
  · intro sim3 h3
    unfold generateCode at h3
    rw [hfind] at h3
    dsimp only at h3
    cases hgen : dispatchGenerate g { sim with status := "compiling" } with
    | ok code =>
      rw [hgen] at h3
      dsimp only at h3
      rw [regFind_regSet] at h3
      cases h3
      rfl
    | error msg =>
      rw [hgen] at h3
      dsimp only at h3
      rw [regFind_regSet] at h3
      cases h3
      rfl

/-- C2 witness: the concrete completed run of `testCode` (compiler exit
0) leaves the counter of `exSimCounted` at its prior value `some 0`,
and a fresh creation carries no counter. -/
theorem executionCount_never_modified_witness :
    ((testCode exEnvOK [("sim1", exSimCounted)] "sim1").outcome =
        .ok { exSimCounted with
              status := "success"
              result := some
                { success := true, errors := [], warnings := some []
                  gasEstimate := some "Compilation check only", aiAnalysis := some "fine" } } →
      ({ exSimCounted with
         status := "success"
         result := some
           { success := true, errors := [], warnings := some []
             gasEstimate := some "Compilation check only",
             aiAnalysis := some "fine" } } : SandboxSimulation).executionCount =
        exSimCounted.executionCount) ∧
    (createSimulation [] "sim9" 0 "token" exParams).1.executionCount = none := by
  have h := executionCount_never_modified exEnvOK [("sim1", exSimCounted)] "sim1"
    exSimCounted exOracle rfl
  exact ⟨h.1 _, h.2.2 [] "sim9" 0 "token" exParams⟩

/-- C4 counterexample: a run whose compiler step completed with exit
code 0 but whose follow-up analysis request throws does NOT merely omit
the narrative: the stored result has `success = false` and the status
is 'error', so the claim that the analysis failure leaves the success
flag and status unchanged is false. -/
theorem analysis_failure_counterexample :
    exEnvAnalyzeFail.compileProc = .ok { exitCode := 0, stdout := "", stderr := "" } ∧
    ((testCode exEnvAnalyzeFail [("sim1", exSimWithCode)] "sim1").outcome.toOption.map
      (fun s => (s.status, s.result.map SimResult.success))) =
      some ("error", some false) :=
  ⟨rfl, rfl⟩

/-- C4 (amended): when the compiler run completed (a process output was
obtained, regardless of exit code) but the follow-up analysis request
throws, the exception reaches `testCode`'s outer catch: the compile
outcome is discarded, the simulation's result is replaced by
`success = false` with the analysis error message as its only entry,
and status is set to 'error'. -/
theorem analysis_failure_discards_outcome (env : SandboxEnv) (st : Registry)
    (simulationId : String) (sim : SandboxSimulation) (out : ProcOutput) (msg : String)
    (hfind : regFind st simulationId = some sim) (hcode : sim.code ≠ "")
    (hkey : env.e2bApiKey ≠ "") (hcreate : env.create = .ok ())
    (hinstall : env.installCli = .ok ()) (htoml : env.writeMoveToml = .ok ())
    (hdir : env.makeSourcesDir = .ok ()) (hmain : env.writeMainMove = .ok ())
    (hcompile : env.compileProc = .ok out) (hanalyze : env.analyze = .error msg) :
    (testCode env st simulationId).outcome =
      .ok { sim with
            status := "error"
            result := some { success := false, errors := [msg] } } := by
  simp only [testCode, hfind, if_neg hcode, runTry, if_neg hkey, hcreate, hinstall, htoml,
    hdir, hmain, hcompile, hanalyze]

/-- C4 witness: the concrete run with compiler exit 0 and a failing
analysis call. -/
theorem analysis_failure_discards_outcome_witness :
    (testCode exEnvAnalyzeFail [("sim1", exSimWithCode)] "sim1").outcome =
      .ok { exSimWithCode with
            status := "error"
            result := some { success := false, errors := ["analysis failed"] } } :=
  analysis_failure_discards_outcome exEnvAnalyzeFail [("sim1", exSimWithCode)] "sim1"
    exSimWithCode { exitCode := 0, stdout := "", stderr := "" } "analysis failed"
    rfl (by decide) (by decide) rfl rfl rfl rfl rfl rfl rfl

/-- C7: on every execution path of `testCode`, the `finally` block
invokes `sandbox.close()` at most once, and exactly once precisely when
an environment was provisioned — the simulation was found with
non-empty code, the credential check passed, and `Sandbox.create`
succeeded; whatever happens afterwards (compile success, compile
failure, or a throw at any later step) does not change this, and if
provisioning never happened, teardown never runs. -/
theorem testCode_teardown_exactly_once (env : SandboxEnv) (st : Registry)
    (simulationId : String) :
    (testCode env st simulationId).closes ≤ 1 ∧
    ((testCode env st simulationId).closes = 1 ↔
      (∃ sim, regFind st simulationId = some sim ∧ sim.code ≠ "") ∧
        env.e2bApiKey ≠ "" ∧ env.create = .ok ()) := by
  cases hfind : regFind st simulationId with
  | none =>
    constructor
    · simp [testCode, hfind]
    · simp [testCode, hfind]
  | some sim =>
    by_cases hcode : sim.code = ""
    · constructor
      · simp [testCode, hfind, hcode]
      · simp [testCode, hfind, hcode]
    · have hcl : (testCode env st simulationId).closes =
          if (runTry env { sim with status := "compiling" }).2 = true then 1 else 0 := by
        simp [testCode, hfind, hcode]
      constructor
      · rw [hcl]
        split <;> omega
      · rw [hcl]
        rcases hb : (runTry env { sim with status := "compiling" }).2 with _ | _
        · have hnot : ¬(env.e2bApiKey ≠ "" ∧ env.create = .ok ()) := by
            intro hcontra
            have hcr := (runTry_created env { sim with status := "compiling" }).mpr hcontra
            rw [hb] at hcr
            exact Bool.false_ne_true hcr
          constructor
          · intro h
            exact absurd h (by decide)
          · rintro ⟨_, hrest⟩
            exact absurd hrest hnot
        · have hyes := (runTry_created env { sim with status := "compiling" }).mp hb
          constructor
          · intro _
            exact ⟨⟨sim, rfl, hcode⟩, hyes⟩
          · intro _
            rfl

/-- C8: the compile outcome is classified as success exactly when the
exit code is 0; when it is not 0, the error list is the stderr lines
that are non-empty (after trimming whitespace, which is how the code
tests line non-emptiness), in their original order; when it is 0, the
error list is empty and the warning list is the stdout lines containing
"warning" case-insensitively (and non-empty after trimming), in their
original order. The filters are characterized by the sublist (order)
and membership conjuncts. -/
theorem compile_outcome_classification (env : SandboxEnv) (st : Registry)
    (simulationId : String) (sim : SandboxSimulation) (out : ProcOutput) (analysis : String)
    (hfind : regFind st simulationId = some sim) (hcode : sim.code ≠ "")
    (hkey : env.e2bApiKey ≠ "") (hcreate : env.create = .ok ())
    (hinstall : env.installCli = .ok ()) (htoml : env.writeMoveToml = .ok ())
    (hdir : env.makeSourcesDir = .ok ()) (hmain : env.writeMainMove = .ok ())
    (hcompile : env.compileProc = .ok out) (hanalyze : env.analyze = .ok analysis) :
    (testCode env st simulationId).outcome =
      .ok { sim with
            status := if out.exitCode = 0 then "success" else "error"
            result := some
              { success := decide (out.exitCode = 0)
                errors := if out.exitCode = 0 then [] else stderrErrorLines out.stderr
                warnings := some (if out.exitCode = 0 then stdoutWarningLines out.stdout else [])
                gasEstimate := some "Compilation check only"
                aiAnalysis := some analysis } } ∧
    List.Sublist (stderrErrorLines out.stderr) (jsSplitNewline out.stderr) ∧
    (∀ line, line ∈ stderrErrorLines out.stderr ↔
      line ∈ jsSplitNewline out.stderr ∧ jsTrim line ≠ "") ∧
    List.Sublist (stdoutWarningLines out.stdout) (jsSplitNewline out.stdout) ∧
    (∀ line, line ∈ stdoutWarningLines out.stdout ↔
      line ∈ jsSplitNewline out.stdout ∧ jsTrim line ≠ "" ∧ containsWarningCI line) := by
  refine ⟨?_, List.filter_sublist _, ?_, List.filter_sublist _, ?_⟩
  · simp only [testCode, hfind, if_neg hcode, runTry, if_neg hkey, hcreate, hinstall, htoml,
      hdir, hmain, hcompile, hanalyze]
    by_cases hexit : out.exitCode = 0
    · simp [hexit]
    · simp [hexit]
  · intro line
    simp [stderrErrorLines, List.mem_filter]
  · intro line
    simp [stdoutWarningLines, List.mem_filter]

/-- C8 witness: the spec's compile-failure scenario — exit code 1 with
stderr "error: missing module\nerror: unresolved import" yields the
two-element error list in order, status 'error', and no warnings. -/
theorem compile_outcome_classification_witness :
    (testCode exEnvCompileFails [("sim1", exSimWithCode)] "sim1").outcome =
      .ok { exSimWithCode with
            status := "error"
            result := some
              { success := false
                errors := ["error: missing module", "error: unresolved import"]
                warnings := some []
                gasEstimate := some "Compilation check only"
                aiAnalysis := some "fine" } } := by
  have h := (compile_outcome_classification exEnvCompileFails [("sim1", exSimWithCode)]
    "sim1" exSimWithCode
    { exitCode := 1, stdout := "", stderr := "error: missing module\nerror: unresolved import" }
    "fine" rfl (by decide) (by decide) rfl rfl rfl rfl rfl rfl rfl).1
  have hlines : stderrErrorLines "error: missing module\nerror: unresolved import" =
      ["error: missing module", "error: unresolved import"] := by decide
  rw [hlines] at h
  simpa using h

/-- With a service that rate-limits every attempt, the retry loop
consumes every remaining iteration and then throws the exhaustion
error, having fetched once per iteration. -/
theorem makeRequestGo_always_429 (svc : RemoteService)
    (h : ∀ n m, (svc n m).status = 429) :
    ∀ (remaining : Nat) (model : String) (calls : Nat),
      makeRequestGo svc remaining model calls =
        { outcome := .error "OpenRouter API error: too many retries after 429"
          calls := calls + remaining + 1 } := by
  intro remaining
  induction remaining with
  | zero =>
    intro model calls
    unfold makeRequestGo
    rw [if_pos (h calls model)]
  | succ r ih =>
    intro model calls
    unfold makeRequestGo
    rw [if_pos (h calls model)]
    dsimp only
    rw [ih (downgradeModel model) (calls + 1)]
    congr 1
    omega

/-- If the next `j` calls are rate-limited and the one after succeeds
(within the remaining budget), the loop returns that response's body
after exactly `j + 1` further fetches. -/
theorem makeRequestGo_success_after (svc : RemoteService) (body : OpenRouterResponse) :
    ∀ (j : Nat) (remaining : Nat) (model : String) (calls : Nat),
      j ≤ remaining →
      (∀ k m, calls ≤ k → k < calls + j → (svc k m).status = 429) →
      (∀ m, (svc (calls + j) m).status ≠ 429 ∧ respOk (svc (calls + j) m) = true ∧
        (svc (calls + j) m).body = body) →
      makeRequestGo svc remaining model calls = { outcome := .ok body, calls := calls + j + 1 } := by
  intro j
  induction j with
  | zero =>
    intro remaining model calls _ _ hsucc
    simp only [Nat.add_zero] at hsucc ⊢
    obtain ⟨h429, hok, hbody⟩ := hsucc model
    unfold makeRequestGo
    rw [if_neg (by simpa using h429)]
    rw [if_neg (by simp [hok])]
    rw [hbody]
  | succ j ih =>
    intro remaining model calls hle h429 hsucc
    match remaining with
    | 0 => exact absurd hle (by omega)
    | r + 1 =>
      unfold makeRequestGo
      rw [if_pos (h429 calls model (le_refl calls) (by omega))]
      dsimp only
      rw [ih r (downgradeModel model) (calls + 1) (by omega)
        (fun k m hk1 hk2 => h429 k m (by omega) (by omega))
        (fun m => by
          have h := hsucc m
          rwa [show calls + 1 + j = calls + (j + 1) from by omega])]
      congr 1
      omega

/-- C6: against a service that rate-limits every attempt, `makeRequest`
with retry budget R performs exactly R+1 underlying calls and then
fails with the retry-exhaustion error; if the first N attempts
(N < R+1) are rate-limited and the next succeeds, it performs exactly
N+1 calls and returns the successful response. -/
theorem makeRequest_retry_budget (svc : RemoteService) (apiKey model : String) (R : Nat)
    (hkey : apiKey ≠ "") :
    ((∀ n m, (svc n m).status = 429) →
      makeRequest svc apiKey model R =
        { outcome := .error "OpenRouter API error: too many retries after 429"
          calls := R + 1 }) ∧
    (∀ (N : Nat) (body : OpenRouterResponse),
      N < R + 1 →
      (∀ k m, k < N → (svc k m).status = 429) →
      (∀ m, (svc N m).status ≠ 429 ∧ respOk (svc N m) = true ∧ (svc N m).body = body) →
      makeRequest svc apiKey model R = { outcome := .ok body, calls := N + 1 }) := by
  constructor
  · intro h
    unfold makeRequest
    rw [if_neg hkey]
    rw [makeRequestGo_always_429 svc h R model 0]
    congr 1
    omega
  · intro N body hN h429 hsucc
    unfold makeRequest
    rw [if_neg hkey]
    rw [makeRequestGo_success_after svc body N R model 0 (by omega)
      (fun k m _ hk2 => h429 k m (by omega))
      (fun m => by simpa using hsucc m)]
    congr 1
    omega

/-- C6 witness: with budget 2 an always-rate-limited service is called
exactly 3 times then the exhaustion error is thrown; with budget 3 and
two rate-limited calls followed by a success, exactly 3 calls happen
and the successful body is returned. -/
theorem makeRequest_retry_budget_witness :
    makeRequest svcAlways429 "key" "m" 2 =
      { outcome := .error "OpenRouter API error: too many retries after 429", calls := 3 } ∧
    makeRequest svcSucceedAt2 "key" "m" 3 = { outcome := .ok exBody, calls := 3 } := by
  constructor
  · exact (makeRequest_retry_budget svcAlways429 "key" "m" 2 (by decide)).1
      (fun n m => rfl)
  · exact (makeRequest_retry_budget svcSucceedAt2 "key" "m" 3 (by decide)).2 2 exBody
      (by omega)
      (fun k m hk => by
        unfold svcSucceedAt2
        rw [if_pos hk])
      (fun m => ⟨by simp [svcSucceedAt2], by simp [svcSucceedAt2, respOk], rfl⟩)

end AptosSage
